import Mathlib

/-!
Shallow embedding of the TodoListAPI Flask application (main.py) in Lean 4,
together with theorems about its behaviour.

Modelling conventions: the SQLite store, the autoincrement counters, the JWT
signing secret and the constant datetime captured by the column defaults are
an explicit state `DB`; each route handler is a pure function from the state
and its inputs to a tagged result and the successor state.  Fallible
computations return `Except` or tagged result types.  Clock readings are
explicit `now` parameters.
-/

namespace TodoListAPI

/-! ## String helpers

Executable counterparts of the Python string operations used by main.py.
They are written by structural recursion over `String.data` so that every
definition evaluates inside the kernel (`decide` / `rfl`).
-/

/-- Python `str.lower` restricted to ASCII, which is all the routes compare
(the completed filter values and the order parameter are ASCII). -/
def char_lower (c : Char) : Char :=
  if 65 ≤ c.toNat ∧ c.toNat ≤ 90 then Char.ofNat (c.toNat + 32) else c

/-- Python `str.lower` (ASCII fragment). -/
def strLower (s : String) : String := ⟨s.data.map char_lower⟩

/-- ASCII whitespace, the characters `str.strip()` removes on the inputs the
API receives. -/
def isSpaceChar (c : Char) : Bool := c == ' ' || c == '\t' || c == '\n' || c == '\r'

/-- Python `str.strip()`: drop leading and trailing whitespace. -/
def trimChars (l : List Char) : List Char :=
  ((l.dropWhile isSpaceChar).reverse.dropWhile isSpaceChar).reverse

/-- Python `str.strip()` on a `String`. -/
def strTrim (s : String) : String := ⟨trimChars s.data⟩

/-- Holds when the call `startsWithChars hay needle` is read as: `needle` is an initial segment of
`hay`. -/
def startsWithChars : List Char → List Char → Bool
  | _, [] => true
  | [], _ :: _ => false
  | h :: hs, n :: ns => h == n && startsWithChars hs ns

/-- Occurrence test `containsChars hay needle`: `needle` occurs as a contiguous segment of
`hay`. -/
def containsChars : List Char → List Char → Bool
  | [], needle => needle.isEmpty
  | hay@(_ :: hs), needle => startsWithChars hay needle || containsChars hs needle

/-- SQL `col ILIKE %pat%`: case-insensitive substring match, as used by the
search filter of `get_tasks` (wildcard characters inside `pat` itself are not
modelled; the claims only exercise plain substrings). -/
def ilike_match (hay pat : String) : Bool :=
  containsChars (strLower hay).data (strLower pat).data

/-- Lexicographic byte-order comparison of two strings, modelling the SQLite
BINARY collation used by `ORDER BY title`. -/
def charListLe : List Char → List Char → Bool
  | [], _ => true
  | _ :: _, [] => false
  | a :: as, b :: bs =>
    if a.toNat < b.toNat then true
    else if b.toNat < a.toNat then false
    else charListLe as bs

/-- String order for the title sort key. -/
def strLeB (s t : String) : Bool := charListLe s.data t.data

/-- Python `int(...)` applied to a decimal digit string; `none` models the
`ValueError` raised on non-numeric text.  The identities the app issues are
`str(user.id)` for a non-negative id, so digits suffice. -/
def digitsToNat (l : List Char) : Option Nat :=
  match l with
  | [] => none
  | _ => l.foldl (fun acc c =>
      match acc with
      | none => none
      | some n => if 48 ≤ c.toNat ∧ c.toNat ≤ 57 then some (n * 10 + (c.toNat - 48)) else none)
      (some 0)

/-! ## Data model (main.py lines 33-54)

`User` and `Task` mirror the two SQLAlchemy models.  Timestamps are `Nat`
(seconds, say).  The crucial faithfulness point: in the source the column
defaults are written `default=datetime.now(timezone.utc)` — the function is
CALLED once, when the class body executes at module load, so the default (and
the `onupdate` value) is a fixed constant datetime, not a fresh clock reading
per row.  The model carries that constant as `DB.moduleLoadTime`.
-/

structure User where
  id : Nat
  email : String
  password : String
  name : String
deriving DecidableEq, Repr

structure Task where
  id : Nat
  owner_id : Nat
  title : String
  description : String
  completed : Bool
  created_at : Nat
  updated_at : Nat
deriving DecidableEq, Repr

/-- The whole process state: the two tables, the autoincrement counters, the
JWT signing secret chosen at startup (`secrets.token_hex(32)`), and the fixed
datetime captured when the `Task` column defaults were evaluated at module
load. -/
structure DB where
  users : List User
  tasks : List Task
  nextUserId : Nat
  nextTaskId : Nat
  jwtSecret : Nat
  moduleLoadTime : Nat
deriving DecidableEq, Repr

/-! ## Credential store (werkzeug) -/

/-- werkzeug `generate_password_hash(password, method="pbkdf2:sha256")`.
The salted PBKDF2 digest is abstracted as a deterministic injective encoding
of the password; all the app relies on is that `check_password_hash`
recomputes and matches exactly the original password. -/
def generate_password_hash (password : String) : String :=
  "pbkdf2:sha256$" ++ password

/-- werkzeug `check_password_hash(storedHash, password)`: recompute and
compare. -/
def check_password_hash (storedHash password : String) : Bool :=
  storedHash == generate_password_hash password

/-! ## Token service (flask_jwt_extended) -/

/-- The JWT `sub` claim.  `register` passes `str(new_user.id)` while `login`
passes the bare integer `user.id`, so the identity is a string in one flow and
an int in the other. -/
inductive Identity where
  | str (s : String)
  | int (n : Int)
deriving DecidableEq, Repr

structure AccessToken where
  sub : Identity
  exp : Nat
  sig : Nat
deriving DecidableEq, Repr

/-- Issuance, `create_access_token(identity)`: expiry is issue time plus the configured
`JWT_ACCESS_TOKEN_EXPIRES = timedelta(hours=1)`; the signature is modelled as
the signing secret itself. -/
def create_access_token (identity : Identity) (secret : Nat) (now : Nat) : AccessToken :=
  { sub := identity, exp := now + 3600, sig := secret }

/-- Token verification as performed by `@jwt_required()`: accept when the
signature matches the process secret and the token has not expired, and yield
the `sub` claim (what `get_jwt_identity()` returns). -/
def verify_token (secret : Nat) (now : Nat) (tok : AccessToken) : Option Identity :=
  if tok.sig == secret && now < tok.exp then some tok.sub else none

/-- Models `int(get_jwt_identity())`: the handlers coerce the identity with `int()`. -/
def int_of_identity : Identity → Option Int
  | .int n => some n
  | .str s => (digitsToNat s.data).map (fun n => (n : Int))

/-! ## Serialization helpers (main.py lines 57-74) -/

structure UserDict where
  id : Nat
  email : String
  name : String
deriving DecidableEq, Repr

def user_to_dict (u : User) : UserDict :=
  { id := u.id, email := u.email, name := u.name }

/-- The JSON payload produced by `task_to_dict`; `isoformat()` is modelled by
`toString` on the timestamp (a datetime value is always truthy in Python, so
the `if task.created_at` guards always take the `isoformat` branch for the
non-nullable columns). -/
structure TaskDict where
  id : Nat
  title : String
  description : String
  completed : Bool
  owner_id : Nat
  created_at : Option String
  updated_at : Option String
deriving DecidableEq, Repr

def task_to_dict (t : Task) : TaskDict :=
  { id := t.id, title := t.title, description := t.description,
    completed := t.completed, owner_id := t.owner_id,
    created_at := some (toString t.created_at),
    updated_at := some (toString t.updated_at) }

/-! ## Session gate error body (main.py lines 29-31) -/

structure ErrorBody where
  error : String
deriving DecidableEq, Repr

/-- The handler `custom_unauthorized_response`: whatever the cause string says, the
response is the one fixed 401 body. -/
def custom_unauthorized_response (_err_str : String) : ErrorBody × Nat :=
  ({ error := "Missing or invalid token" }, 401)

/-- A one-field JSON error object: the flask_jwt_extended default callbacks
answer under the key "msg" while the app handlers answer under "error". -/
structure JsonObj where
  key : String
  value : String
deriving DecidableEq, Repr

/-- The ways `@jwt_required()` can reject a request. -/
inductive AuthFailure where
  | missingToken
  | invalidToken (reason : String)
  | expiredToken
deriving DecidableEq, Repr

/-- Dispatch of `@jwt_required()` rejections as flask_jwt_extended performs
it.  main.py registers only `@jwt.unauthorized_loader`, which fires when no
token is supplied at all; a malformed or bad-signature token is routed to the
library default invalid_token_loader — HTTP 422 with the exception text under
"msg" — and an expired token to the default expired_token_loader — 401 with
`{"msg": "Token has expired"}` — neither of which main.py overrides. -/
def jwt_required_response : AuthFailure → JsonObj × Nat
  | .missingToken =>
    let r := custom_unauthorized_response "Missing Authorization Header"
    ({ key := "error", value := r.1.error }, r.2)
  | .invalidToken reason => ({ key := "msg", value := reason }, 422)
  | .expiredToken => ({ key := "msg", value := "Token has expired" }, 401)

/-! ## register (main.py lines 77-96) -/

inductive RegisterResult where
  | missingFields
  | emailExists
  | created (token : AccessToken) (user : UserDict)
deriving DecidableEq, Repr

/-- Route `POST /register`.  Absent JSON fields behave like empty strings (both are
falsy under `if not name or not email or not password`). -/
def register (db : DB) (now : Nat) (name email password : String) :
    RegisterResult × DB :=
  if name == "" || email == "" || password == "" then (.missingFields, db)
  else if (db.users.find? (fun u => u.email == email)).isSome then (.emailExists, db)
  else
    let hashed := generate_password_hash password
    let new_user : User := { id := db.nextUserId, email := email, password := hashed, name := name }
    let db2 : DB := { db with users := db.users ++ [new_user], nextUserId := db.nextUserId + 1 }
    let access_token := create_access_token (.str (toString new_user.id)) db.jwtSecret now
    (.created access_token (user_to_dict new_user), db2)

/-! ## login (main.py lines 99-113) -/

inductive LoginResult where
  | missingFields
  | invalidCredentials
  | ok (token : AccessToken) (user : UserDict)
deriving DecidableEq, Repr

/-- Route `POST /login`.  Note `create_access_token(identity=user.id)` passes the
bare integer id, unlike `register` which passes `str(new_user.id)`. -/
def login (db : DB) (now : Nat) (email password : String) : LoginResult :=
  if email == "" || password == "" then .missingFields
  else
    match db.users.find? (fun u => u.email == email) with
    | none => .invalidCredentials
    | some user =>
      if check_password_hash user.password password then
        .ok (create_access_token (.int (user.id : Int)) db.jwtSecret now) (user_to_dict user)
      else .invalidCredentials

/-- The HTTP status each login outcome is returned with. -/
def LoginResult.status : LoginResult → Nat
  | .missingFields => 400
  | .invalidCredentials => 401
  | .ok _ _ => 200

/-- The error body each failing login outcome carries (`jsonify({"error": ...})`). -/
def LoginResult.errorBody : LoginResult → Option ErrorBody
  | .missingFields => some { error := "Missing required fields: email, password" }
  | .invalidCredentials => some { error := "Invalid credentials" }
  | .ok _ _ => none

/-! ## add_new_task (main.py lines 116-130) -/

inductive CreateResult where
  | missingTitle
  | created (task : Task)
deriving DecidableEq, Repr

/-- Route `POST /todos`.  `title` is `data.get("title")` (absent represented by
`none`); `description` defaults to `""` via `data.get("description", "")`.
The guard is `if not title`, i.e. Python falsiness: it rejects an absent or
empty title but accepts a whitespace-only one.  No clock is read anywhere in
this handler: the stored `created_at`/`updated_at` come from the column
defaults, the constant `db.moduleLoadTime`. -/
def add_new_task (db : DB) (current_user_id : Nat) (title : Option String)
    (description : String) : CreateResult × DB :=
  match title with
  | none => (.missingTitle, db)
  | some t =>
    if t == "" then (.missingTitle, db)
    else
      let task : Task :=
        { id := db.nextTaskId, owner_id := current_user_id, title := t,
          description := description, completed := false,
          created_at := db.moduleLoadTime, updated_at := db.moduleLoadTime }
      (.created task, { db with tasks := db.tasks ++ [task], nextTaskId := db.nextTaskId + 1 })

/-! ## update_task (main.py lines 133-163) -/

/-- A JSON value as it can appear in a PUT body field. -/
inductive JsonVal where
  | jstr (s : String)
  | jbool (b : Bool)
  | jnum (n : Int)
deriving DecidableEq, Repr

/-- The PUT body: each field is `data.get(...)`, so an absent field and a JSON
`null` both come out as `none`.  The source accepts arbitrary JSON for
`description` and stores it verbatim; the model keeps the string case, the
only one the claims exercise. -/
structure UpdatePatch where
  title : Option JsonVal
  description : Option String
  completed : Option JsonVal
deriving DecidableEq, Repr

inductive UpdateResult where
  | notFound
  | forbidden
  | invalid (msg : String)
  | ok (task : Task)
deriving DecidableEq, Repr

/-- The sequence of field checks and assignments of lines 149-160, performed
on the session object.  An `error` models an early `return` before
`db.session.commit()`. -/
def update_apply (task : Task) (p : UpdatePatch) : Except String Task :=
  match
    (match p.title with
     | none => Except.ok task
     | some (.jstr s) =>
       if strTrim s == "" then Except.error "Invalid title"
       else Except.ok { task with title := strTrim s }
     | some _ => Except.error "Invalid title") with
  | .error e => .error e
  | .ok task1 =>
    let task2 := match p.description with
      | none => task1
      | some d => { task1 with description := d }
    match p.completed with
    | none => .ok task2
    | some (.jbool b) => .ok { task2 with completed := b }
    | some _ => .error "completed must be boolean"

/-- Route `PUT /todos/(task_id)`.  Existence is checked first (global primary-key
lookup, not owner-scoped), ownership second.  On an early error return the
session is never committed — Flask-SQLAlchemy rolls the scoped session back at
request teardown — so the returned store is the unchanged `db`.  On success
the commit issues an UPDATE when some column value changed, which applies
`onupdate`, i.e. sets `updated_at` to the constant `db.moduleLoadTime`. -/
def update_task (db : DB) (current_user_id task_id : Nat) (p : UpdatePatch) :
    UpdateResult × DB :=
  match db.tasks.find? (fun t => t.id == task_id) with
  | none => (.notFound, db)
  | some task =>
    if task.owner_id != current_user_id then (.forbidden, db)
    else
      match update_apply task p with
      | .error msg => (.invalid msg, db)
      | .ok task1 =>
        let committed := if task1 == task then task
          else { task1 with updated_at := db.moduleLoadTime }
        (.ok committed,
         { db with tasks := db.tasks.map (fun t => if t.id == task_id then committed else t) })

/-! ## delete_task (main.py lines 166-178) -/

inductive DeleteResult where
  | notFound
  | forbidden
  | noContent
deriving DecidableEq, Repr

/-- Route `DELETE /todos/(task_id)`: global lookup by id first, ownership second. -/
def delete_task (db : DB) (current_user_id task_id : Nat) : DeleteResult × DB :=
  match db.tasks.find? (fun t => t.id == task_id) with
  | none => (.notFound, db)
  | some task =>
    if task.owner_id != current_user_id then (.forbidden, db)
    else (.noContent, { db with tasks := db.tasks.filter (fun t => t.id != task_id) })

/-! ## get_tasks (main.py lines 181-233) and paginate_query (lines 71-74) -/

/-- Helper `paginate_query(query, page, limit)`: total row count, then
`OFFSET (page-1)*limit LIMIT limit`. -/
def paginate_query (q : List Task) (page limit : Int) : List Task × Nat :=
  ((q.drop ((page - 1) * limit).toNat).take limit.toNat, q.length)

/-- The query parameters of `GET /todos`; `page` and `limit` are parsed with
`type=int` by the boundary layer, the rest arrive as raw strings; `none` is an
absent parameter. -/
structure ListParams where
  page : Option Int
  limit : Option Int
  completed : Option String
  search : Option String
  sort : Option String
  order : Option String
deriving DecidableEq, Repr

structure ListResponse where
  data : List TaskDict
  page : Int
  limit : Int
  total : Nat
deriving DecidableEq, Repr

/-- Lines 199-206: the completed filter.  The raw value is lowercased and
compared against the synonym sets; anything else is a 400.  (The source
message wraps the word completed in single quotes.) -/
def completedFilter (q : List Task) (cp : Option String) : Except String (List Task) :=
  match cp with
  | none => .ok q
  | some s =>
    if strLower s == "true" || strLower s == "1" then
      .ok (q.filter (fun t => t.completed == true))
    else if strLower s == "false" || strLower s == "0" then
      .ok (q.filter (fun t => t.completed == false))
    else .error "Invalid completed query parameter, use true/false"

/-- Lines 208-211: `if search:` — a missing parameter and an empty string are
both falsy, so no filter is applied for either. -/
def searchFilter (q : List Task) (search : Option String) : List Task :=
  match search with
  | none => q
  | some s =>
    if s == "" then q
    else q.filter (fun t => ilike_match t.title s || ilike_match t.description s)

/-- Lines 214-217: unrecognized sort keys silently fall back to created_at. -/
def sort_key_of (sort : Option String) : String :=
  let s := match sort with | none => "created_at" | some s => s
  if s == "created_at" || s == "title" || s == "updated_at" then s else "created_at"

/-- Line 215: anything other than desc (after lowercasing) means ascending. -/
def order_desc (ord : Option String) : Bool :=
  strLower (match ord with | none => "desc" | some o => o) == "desc"

/-- The comparator `ORDER BY` uses for the chosen column (ascending). -/
def sortLe (key : String) (a b : Task) : Bool :=
  if key == "title" then charListLe a.title.data b.title.data
  else if key == "updated_at" then decide (a.updated_at ≤ b.updated_at)
  else decide (a.created_at ≤ b.created_at)

/-- The full row order requested by the sort and order parameters. -/
def taskOrder (sort ord : Option String) (a b : Task) : Bool :=
  if order_desc ord then sortLe (sort_key_of sort) b a else sortLe (sort_key_of sort) a b

/-- Insert into a sorted list, keeping earlier rows first on ties (a
deterministic model of the ORDER BY output). -/
def insertSorted (le : Task → Task → Bool) (t : Task) : List Task → List Task
  | [] => [t]
  | h :: rest => if le h t then h :: insertSorted le t rest else t :: h :: rest

/-- Deterministic sort of the filtered rows. -/
def sortTasks (le : Task → Task → Bool) (l : List Task) : List Task :=
  l.foldr (fun t acc => insertSorted le t acc) []

/-- The query `q` built by lines 197-223: owner scope, completed filter,
search filter, then ordering. -/
def filteredSortedTasks (db : DB) (current_user_id : Nat)
    (cp search sort ord : Option String) : Except String (List Task) :=
  match completedFilter (db.tasks.filter (fun t => t.owner_id == current_user_id)) cp with
  | .error e => .error e
  | .ok q => .ok (sortTasks (taskOrder sort ord) (searchFilter q search))

/-- Route `GET /todos`: normalize page and limit (lines 189-194), build the filtered
and sorted query, paginate, and echo page, limit and the pre-pagination total. -/
def get_tasks (db : DB) (current_user_id : Nat) (p : ListParams) :
    Except String ListResponse :=
  let page0 := match p.page with | none => 1 | some v => v
  let limit0 := match p.limit with | none => 10 | some v => v
  let page := if page0 < 1 then 1 else page0
  let limit := if limit0 < 1 ∨ limit0 > 100 then 10 else limit0
  match filteredSortedTasks db current_user_id p.completed p.search p.sort p.order with
  | .error e => .error e
  | .ok q =>
    let pair := paginate_query q page limit
    .ok { data := pair.1.map task_to_dict, page := page, limit := limit, total := pair.2 }

/-! ## Helper functions for stating the pagination claim -/

/-- The `data` array returned by `GET /todos` at a given page and limit (empty
list for an error response; the claims only use it where the call succeeds). -/
def page_data (db : DB) (uid : Nat) (cp s so ord : Option String) (L pg : Nat) :
    List TaskDict :=
  match get_tasks db uid ⟨some (pg : Int), some (L : Int), cp, s, so, ord⟩ with
  | .ok r => r.data
  | .error _ => []

/-- The `total` field returned by `GET /todos` at a given page and limit. -/
def page_total (db : DB) (uid : Nat) (cp s so ord : Option String) (L pg : Nat) : Nat :=
  match get_tasks db uid ⟨some (pg : Int), some (L : Int), cp, s, so, ord⟩ with
  | .ok r => r.total
  | .error _ => 0

/-! ## Generic lemmas -/

theorem find?_append_of_none {α : Type} (p : α → Bool) (l₁ l₂ : List α)
    (h : l₁.find? p = none) : (l₁ ++ l₂).find? p = l₂.find? p := by
  rw [List.find?_append, h, Option.none_or]

theorem insertSorted_perm (le : Task → Task → Bool) (t : Task) (l : List Task) :
    (insertSorted le t l).Perm (t :: l) := by
  induction l with
  | nil => exact List.Perm.refl _
  | cons h rest ih =>
    simp only [insertSorted]
    split
    · exact (ih.cons h).trans (List.Perm.swap t h rest)
    · exact List.Perm.refl _

theorem sortTasks_perm (le : Task → Task → Bool) (l : List Task) :
    (sortTasks le l).Perm l := by
  induction l with
  | nil => exact List.Perm.refl _
  | cons a l ih =>
    simp only [sortTasks, List.foldr_cons]
    exact (insertSorted_perm le a _).trans (ih.cons a)

/-- Concatenating the first `k` pages of size `L` of a list is the same as
taking its first `k * L` elements. -/
theorem pages_flatten {α : Type} (L k : Nat) : ∀ l : List α,
    ((List.range k).map (fun i => (l.drop (i * L)).take L)).flatten = l.take (k * L) := by
  induction k with
  | zero => intro l; simp
  | succ k ih =>
    intro l
    rw [List.range_succ_eq_map]
    have hfun : ((fun i => List.take L (List.drop (i * L) l)) ∘ Nat.succ)
        = fun i => ((l.drop L).drop (i * L)).take L := by
      funext i
      simp only [Function.comp_apply, List.drop_drop]
      have : Nat.succ i * L = L + i * L := by
        simp [Nat.succ_mul, Nat.add_comm]
      rw [this]
    simp only [List.map_cons, List.map_map, hfun, List.flatten_cons, Nat.zero_mul,
      List.drop_zero]
    rw [ih (l.drop L), ← List.take_add]
    have : L + k * L = (k + 1) * L := by
      simp [Nat.succ_mul, Nat.add_comm]
    rw [this]

/-- Ceiling bound: `ceil(N / L) * L` covers `N`. -/
theorem le_ceil_mul (N L : Nat) (hL : 0 < L) : N ≤ ((N + L - 1) / L) * L := by
  have h := Nat.div_add_mod (N + L - 1) L
  have h2 : (N + L - 1) % L < L := Nat.mod_lt _ hL
  generalize hq : L * ((N + L - 1) / L) = A at h
  rw [Nat.mul_comm, hq]
  omega

/-! ## Concrete example states used by the claim witnesses -/

def exDb0 : DB :=
  { users := [], tasks := [], nextUserId := 1, nextTaskId := 1,
    jwtSecret := 7, moduleLoadTime := 100 }

def exUser1 : User :=
  { id := 1, email := "a@x", password := generate_password_hash "pw", name := "A" }

def exTask1 : Task :=
  { id := 1, owner_id := 1, title := "Old", description := "d",
    completed := false, created_at := 100, updated_at := 100 }

def exTask2 : Task :=
  { id := 2, owner_id := 1, title := "Buy milk", description := "",
    completed := true, created_at := 101, updated_at := 101 }

def exDb1 : DB :=
  { users := [exUser1], tasks := [exTask1, exTask2], nextUserId := 2, nextTaskId := 3,
    jwtSecret := 7, moduleLoadTime := 100 }

/-- True exactly when the update succeeded. -/
def UpdateResult.isOk : UpdateResult → Bool
  | .ok _ => true
  | _ => false

/-! ## Claim theorems -/

/-- C2: for a stored task owned by someone other than the acting user, both
`update_task` and `delete_task` answer Forbidden (never NotFound), and for an
absent task id both answer NotFound — the existence lookup (a global
primary-key lookup) happens before the ownership check. -/
theorem existence_then_ownership (db : DB) (uid tid : Nat) (p : UpdatePatch) :
    (db.tasks.find? (fun t => t.id == tid) = none →
      (update_task db uid tid p).1 = .notFound ∧ (delete_task db uid tid).1 = .notFound)
    ∧ ∀ tk : Task, db.tasks.find? (fun t => t.id == tid) = some tk → tk.owner_id ≠ uid →
      (update_task db uid tid p).1 = .forbidden ∧ (delete_task db uid tid).1 = .forbidden := by
  constructor
  · intro h
    constructor <;> simp [update_task, delete_task, h]
  · intro tk h howner
    constructor <;> simp [update_task, delete_task, h, howner]

/-- C2 witness: a task owned by user 1 yields Forbidden for acting user 2 on
both operations, and an absent id 99 yields NotFound on both. -/
theorem existence_then_ownership_witness :
    ((update_task exDb1 2 1 { title := none, description := none, completed := none }).1
        = .forbidden
      ∧ (delete_task exDb1 2 1).1 = .forbidden)
    ∧ ((update_task exDb1 2 99 { title := none, description := none, completed := none }).1
        = .notFound
      ∧ (delete_task exDb1 2 99).1 = .notFound) :=
  ⟨(existence_then_ownership exDb1 2 1
      { title := none, description := none, completed := none }).2 exTask1 (by decide) (by decide),
   (existence_then_ownership exDb1 2 99
      { title := none, description := none, completed := none }).1 (by decide)⟩

/-- Either an update commits nothing — the store comes back unchanged — or it
succeeded. -/
theorem update_task_snd_cases (db : DB) (uid tid : Nat) (p : UpdatePatch) :
    (update_task db uid tid p).2 = db ∨ ∃ t, (update_task db uid tid p).1 = .ok t := by
  unfold update_task
  split
  · exact Or.inl rfl
  · split
    · exact Or.inl rfl
    · split
      · exact Or.inl rfl
      · exact Or.inr ⟨_, rfl⟩

/-- C5: a failing update — NotFound, Forbidden, or InvalidInput on any patch
field, including an invalid `completed` after a valid `title` — returns the
store unchanged: the early returns happen before `db.session.commit()`, so no
field of any stored task is modified. -/
theorem failed_update_leaves_store_unchanged (db : DB) (uid tid : Nat) (p : UpdatePatch)
    (h : (update_task db uid tid p).1.isOk = false) :
    (update_task db uid tid p).2 = db := by
  rcases update_task_snd_cases db uid tid p with hdb | ⟨t, ht⟩
  · exact hdb
  · rw [ht] at h
    simp [UpdateResult.isOk] at h

/-- C5 witness: a patch carrying a valid title and a non-boolean `completed`
fails on the owned task 1 and leaves the store exactly as it was. -/
theorem failed_update_leaves_store_unchanged_witness :
    (update_task exDb1 1 1
      { title := some (.jstr "New"), description := none, completed := some (.jnum 1) }).2
      = exDb1 :=
  failed_update_leaves_store_unchanged exDb1 1 1
    { title := some (.jstr "New"), description := none, completed := some (.jnum 1) }
    (by decide)

/-- C3 (divergence witness): `POST /todos` with the whitespace-only title
`"   "` is NOT rejected — `if not title` only catches Python-falsy values — and
the created task stores the untrimmed whitespace title with both timestamps
equal to the constant module-load datetime (the handler never reads the
clock), not the request time. -/
theorem create_accepts_whitespace_only_title :
    add_new_task exDb1 1 (some "   ") "" =
      (.created { id := 3, owner_id := 1, title := "   ", description := "",
                  completed := false, created_at := 100, updated_at := 100 },
       { exDb1 with
          tasks := exDb1.tasks ++
            [{ id := 3, owner_id := 1, title := "   ", description := "",
               completed := false, created_at := 100, updated_at := 100 }],
          nextTaskId := 4 }) := by
  decide

/-- C4 (divergence witness): updating task 1 with `{title: "  New  "}` does
store the trimmed title `"New"`, but the stored `updated_at` equals the prior
value: the `onupdate` argument was the constant datetime evaluated at module
load, so `updated_at` is never advanced by a mutation. -/
theorem update_stores_trimmed_title_but_same_updated_at :
    (update_task exDb1 1 1 { title := some (.jstr "  New  "), description := none, completed := none }).1
        = .ok { exTask1 with title := "New" }
    ∧ ({ exTask1 with title := "New" } : Task).updated_at = exTask1.updated_at
    ∧ ¬ exTask1.updated_at < ({ exTask1 with title := "New" } : Task).updated_at := by
  decide

/-- C8 counterexample: the claim says every 401 in the system carries the body
`{error: "Missing or invalid token"}`, failed login included; but a login with
a wrong password answers 401 with the body `{error: "Invalid credentials"}`. -/
theorem login_401_body_not_uniform :
    (login exDb1 0 "a@x" "wrong").status = 401
    ∧ (login exDb1 0 "a@x" "wrong").errorBody = some { error := "Invalid credentials" }
    ∧ ({ error := "Invalid credentials" } : ErrorBody) ≠ { error := "Missing or invalid token" } := by
  decide

/-- C8 amended: only a protected-route rejection with no token supplied goes
through the overridden `unauthorized_loader` and gets the fixed 401 body
regardless of the cause string; a malformed or bad-signature token gets the
library default 422 with the reason under "msg" (not a 401 at all), an
expired token the default 401 with the distinct body
`{msg: "Token has expired"}`, and a failed login a 401 with
`{error: "Invalid credentials"}` — so neither all authentication rejections
nor all 401s of the system share the fixed body. -/
theorem auth_rejection_bodies_by_path :
    (∀ cause : String,
      custom_unauthorized_response cause = ({ error := "Missing or invalid token" }, 401))
    ∧ jwt_required_response .missingToken
        = ({ key := "error", value := "Missing or invalid token" }, 401)
    ∧ (∀ reason : String,
        jwt_required_response (.invalidToken reason) = ({ key := "msg", value := reason }, 422)
        ∧ (jwt_required_response (.invalidToken reason)).2 ≠ 401)
    ∧ jwt_required_response .expiredToken = ({ key := "msg", value := "Token has expired" }, 401)
    ∧ (jwt_required_response .expiredToken).1 ≠ { key := "error", value := "Missing or invalid token" }
    ∧ ∀ (db : DB) (now : Nat) (email pw : String),
        login db now email pw = .invalidCredentials →
        (login db now email pw).status = 401
        ∧ (login db now email pw).errorBody = some { error := "Invalid credentials" } := by
  refine ⟨fun _ => rfl, rfl, fun reason => ⟨rfl, by simp [jwt_required_response]⟩, rfl,
    by decide, ?_⟩
  intro db now email pw h
  rw [h]
  exact ⟨rfl, rfl⟩

/-- C8 amended witness: the fixed body for a concrete missing-token cause, the
422 "msg" response for a concrete invalid-token reason, and the distinct 401
of a concrete failed login. -/
theorem auth_rejection_bodies_by_path_witness :
    custom_unauthorized_response "Missing Authorization Header"
        = ({ error := "Missing or invalid token" }, 401)
    ∧ (jwt_required_response (.invalidToken "Not enough segments")
          = ({ key := "msg", value := "Not enough segments" }, 422)
        ∧ (jwt_required_response (.invalidToken "Not enough segments")).2 ≠ 401)
    ∧ ((login exDb1 0 "a@x" "wrong").status = 401
        ∧ (login exDb1 0 "a@x" "wrong").errorBody = some { error := "Invalid credentials" }) :=
  ⟨auth_rejection_bodies_by_path.1 "Missing Authorization Header",
   auth_rejection_bodies_by_path.2.2.1 "Not enough segments",
   auth_rejection_bodies_by_path.2.2.2.2.2 exDb1 0 "a@x" "wrong" (by decide)⟩

/-- C10: listing with `search=""` behaves exactly — items, order, page, limit
and total — like listing with no search parameter: the empty string is falsy
under `if search:`, so no search filter is applied. -/
theorem empty_search_same_as_absent (db : DB) (uid : Nat) (pg lim : Option Int)
    (cp so ord : Option String) :
    get_tasks db uid ⟨pg, lim, cp, some "", so, ord⟩ =
      get_tasks db uid ⟨pg, lim, cp, none, so, ord⟩ := by
  simp [get_tasks, filteredSortedTasks, searchFilter]

/-- The completed filter applied at each of the synonym classes. -/
theorem filteredSorted_completed_cases (db : DB) (uid : Nat) (cp : String)
    (s so ord : Option String) :
    filteredSortedTasks db uid (some cp) s so ord =
      if strLower cp = "true" ∨ strLower cp = "1" then
        filteredSortedTasks db uid (some "true") s so ord
      else if strLower cp = "false" ∨ strLower cp = "0" then
        filteredSortedTasks db uid (some "false") s so ord
      else .error "Invalid completed query parameter, use true/false" := by
  have ht : strLower "true" = "true" := by decide
  have hf : strLower "false" = "false" := by decide
  by_cases h1 : strLower cp = "true" ∨ strLower cp = "1"
  · rw [if_pos h1]
    have hb : (strLower cp == "true" || strLower cp == "1") = true := by
      rcases h1 with h | h <;> simp [h]
    simp [filteredSortedTasks, completedFilter, hb, ht]
  · rw [if_neg h1]
    push_neg at h1
    have hb : (strLower cp == "true" || strLower cp == "1") = false := by
      simp [h1.1, h1.2]
    by_cases h2 : strLower cp = "false" ∨ strLower cp = "0"
    · rw [if_pos h2]
      have hb2 : (strLower cp == "false" || strLower cp == "0") = true := by
        rcases h2 with h | h <;> simp [h]
      simp [filteredSortedTasks, completedFilter, hb, hb2, hf]
    · rw [if_neg h2]
      push_neg at h2
      have hb2 : (strLower cp == "false" || strLower cp == "0") = false := by
        simp [h2.1, h2.2]
      simp [filteredSortedTasks, completedFilter, hb, hb2]

/-- C9: the completed filter accepts "1" as a synonym of "true" and "0" as a
synonym of "false", compares after lowercasing (so "True", "FALSE", ... are
accepted), and a present value outside these sets — and only such a value — is
answered with the 400 invalid-parameter error. -/
theorem completed_filter_synonyms (db : DB) (uid : Nat) (pg lim : Option Int)
    (s so ord : Option String) (cp : String) :
    get_tasks db uid ⟨pg, lim, some cp, s, so, ord⟩ =
      if strLower cp = "true" ∨ strLower cp = "1" then
        get_tasks db uid ⟨pg, lim, some "true", s, so, ord⟩
      else if strLower cp = "false" ∨ strLower cp = "0" then
        get_tasks db uid ⟨pg, lim, some "false", s, so, ord⟩
      else .error "Invalid completed query parameter, use true/false" := by
  have hcc := filteredSorted_completed_cases db uid cp s so ord
  by_cases h1 : strLower cp = "true" ∨ strLower cp = "1"
  · rw [if_pos h1] at hcc ⊢
    simp only [get_tasks, hcc]
  · rw [if_neg h1] at hcc ⊢
    by_cases h2 : strLower cp = "false" ∨ strLower cp = "0"
    · rw [if_pos h2] at hcc ⊢
      simp only [get_tasks, hcc]
    · rw [if_neg h2] at hcc ⊢
      simp only [get_tasks, hcc]

/-- Normalization of the page parameter as the claim words it: default 1 when
absent, values below 1 clamped to 1. -/
def claimPageNorm : Option Int → Int
  | none => 1
  | some v => if v < 1 then 1 else v

/-- Normalization of the limit parameter as the claim words it: default 10
when absent, values outside 1..100 silently reset to the default 10, not
clamped to the nearest bound. -/
def claimLimitNorm : Option Int → Int
  | none => 10
  | some v => if v < 1 ∨ v > 100 then 10 else v

/-- C7: a supplied page below 1 is clamped to 1 (default 1 when absent) and a
supplied limit outside 1..100 is reset to the default 10 (default 10 when
absent); the normalized pair is what slices the row list and what the response
echoes. -/
theorem page_limit_normalization (db : DB) (uid : Nat) (cp s so ord : Option String)
    (pg lim : Option Int) (q : List Task)
    (hq : filteredSortedTasks db uid cp s so ord = .ok q) :
    get_tasks db uid ⟨pg, lim, cp, s, so, ord⟩ =
      .ok { data := ((q.drop (((claimPageNorm pg - 1) * claimLimitNorm lim).toNat)).take
                      (claimLimitNorm lim).toNat).map task_to_dict,
            page := claimPageNorm pg, limit := claimLimitNorm lim, total := q.length } := by
  cases pg <;> cases lim <;>
    simp only [get_tasks, claimPageNorm, claimLimitNorm, paginate_query, hq] <;> norm_num

/-- C7 witness: page -5 is used as 1 and limit 1000 as 10 on a concrete
two-task store. -/
theorem page_limit_normalization_witness :
    get_tasks exDb1 1 ⟨some (-5), some 1000, none, none, none, none⟩ =
      .ok { data := (([exTask2, exTask1].drop
                (((claimPageNorm (some (-5)) - 1) * claimLimitNorm (some 1000)).toNat)).take
                  (claimLimitNorm (some 1000)).toNat).map task_to_dict,
            page := claimPageNorm (some (-5)), limit := claimLimitNorm (some 1000),
            total := [exTask2, exTask1].length } :=
  page_limit_normalization exDb1 1 none none none none (some (-5)) (some 1000)
    [exTask2, exTask1] (by rfl)

/-- C1: for any valid registration input (non-empty fields, free email),
`register` succeeds, a subsequent `login` with the same email and password
succeeds on the resulting store and returns the same user payload, and
verifying the token that login issued — within its one-hour lifetime —
resolves, through `int(get_jwt_identity())`, to the id of the user that
register created. -/
theorem register_then_login_token_resolves (db : DB) (tReg tLogin tVer : Nat)
    (name email password : String)
    (hn : name ≠ "") (he : email ≠ "") (hp : password ≠ "")
    (hfree : db.users.find? (fun u => u.email == email) = none)
    (hexp : tVer < tLogin + 3600) :
    ∃ (tok1 : AccessToken) (u : User) (db2 : DB),
      register db tReg name email password = (.created tok1 (user_to_dict u), db2)
      ∧ ∃ tok2 : AccessToken,
          login db2 tLogin email password = .ok tok2 (user_to_dict u)
          ∧ (verify_token db.jwtSecret tVer tok2).bind int_of_identity = some (u.id : Int) := by
  have hn' : (name == "") = false := beq_eq_false_iff_ne.mpr hn
  have he' : (email == "") = false := beq_eq_false_iff_ne.mpr he
  have hp' : (password == "") = false := beq_eq_false_iff_ne.mpr hp
  refine ⟨create_access_token (.str (toString db.nextUserId)) db.jwtSecret tReg,
    ⟨db.nextUserId, email, generate_password_hash password, name⟩,
    { db with
        users := db.users ++ [⟨db.nextUserId, email, generate_password_hash password, name⟩],
        nextUserId := db.nextUserId + 1 },
    ?_, ?_⟩
  · simp [register, hn', he', hp', hfree]
  · refine ⟨create_access_token (.int (db.nextUserId : Int)) db.jwtSecret tLogin, ?_, ?_⟩
    · simp [login, he', hp', hfree, check_password_hash]
    · simp [create_access_token, verify_token, hexp, int_of_identity]

/-- C1 witness: registering Alice on the empty store, then logging in and
verifying her token five seconds later. -/
theorem register_then_login_token_resolves_witness :
    ∃ (tok1 : AccessToken) (u : User) (db2 : DB),
      register exDb0 0 "Alice" "a@x" "pw" = (.created tok1 (user_to_dict u), db2)
      ∧ ∃ tok2 : AccessToken,
          login db2 5 "a@x" "pw" = .ok tok2 (user_to_dict u)
          ∧ (verify_token exDb0.jwtSecret 10 tok2).bind int_of_identity = some (u.id : Int) :=
  register_then_login_token_resolves exDb0 0 5 10 "Alice" "a@x" "pw"
    (by decide) (by decide) (by decide) (by rfl) (by decide)

/-- Evaluating `GET /todos` at an in-range page and limit: the slice of the
filtered and sorted rows, with the pre-pagination total. -/
theorem get_tasks_page_eq (db : DB) (uid : Nat) (cp s so ord : Option String)
    (q : List Task) (hq : filteredSortedTasks db uid cp s so ord = .ok q)
    (L pg : Nat) (hL1 : 1 ≤ L) (hL2 : L ≤ 100) (hpg : 1 ≤ pg) :
    get_tasks db uid ⟨some (pg : Int), some (L : Int), cp, s, so, ord⟩ =
      .ok { data := ((q.drop ((pg - 1) * L)).take L).map task_to_dict,
            page := (pg : Int), limit := (L : Int), total := q.length } := by
  have h1 : ¬ ((pg : Int) < 1) := by omega
  have h2 : ¬ ((L : Int) < 1 ∨ (L : Int) > 100) := by omega
  have e1 : (((pg : Int) - 1) * (L : Int)).toNat = (pg - 1) * L := by
    have e0 : ((pg : Int) - 1) = ((pg - 1 : Nat) : Int) := by omega
    rw [e0, ← Nat.cast_mul, Int.toNat_natCast]
  simp only [get_tasks, hq, paginate_query, if_neg h1, if_neg h2, e1, Int.toNat_natCast]

/-- C6: fix the store, the owner scope, a valid completed filter, a search
string, a sort, and a limit L in 1..100; let q be the matching rows in
response order and N their number.  Concatenating the `data` arrays of pages
1..ceil(N/L) yields exactly q (so no matching task is missing and none is
repeated across pages), the page sizes sum to N, and every page reports
`total = N`. -/
theorem pagination_pages_partition (db : DB) (uid : Nat) (cp s so ord : Option String)
    (L : Nat) (hL1 : 1 ≤ L) (hL2 : L ≤ 100)
    (q : List Task) (hq : filteredSortedTasks db uid cp s so ord = .ok q) :
    ((List.range ((q.length + L - 1) / L)).map
        (fun i => page_data db uid cp s so ord L (i + 1))).flatten = q.map task_to_dict
    ∧ ((List.range ((q.length + L - 1) / L)).map
        (fun i => (page_data db uid cp s so ord L (i + 1)).length)).sum = q.length
    ∧ ∀ pg : Nat, 1 ≤ pg → page_total db uid cp s so ord L pg = q.length := by
  have hpage : ∀ i : Nat, page_data db uid cp s so ord L (i + 1)
      = ((q.drop (i * L)).take L).map task_to_dict := by
    intro i
    unfold page_data
    rw [get_tasks_page_eq db uid cp s so ord q hq L (i + 1) hL1 hL2 (by omega)]
    simp
  have hflat : ((List.range ((q.length + L - 1) / L)).map
      (fun i => page_data db uid cp s so ord L (i + 1))).flatten = q.map task_to_dict := by
    have hfun : (fun i => page_data db uid cp s so ord L (i + 1))
        = fun i => ((q.drop (i * L)).take L).map task_to_dict := funext hpage
    have hsplit : (List.range ((q.length + L - 1) / L)).map
          (fun i => ((q.drop (i * L)).take L).map task_to_dict)
        = ((List.range ((q.length + L - 1) / L)).map
            (fun i => (q.drop (i * L)).take L)).map (List.map task_to_dict) := by
      rw [List.map_map]
      rfl
    rw [hfun, hsplit, ← List.map_flatten, pages_flatten,
      List.take_of_length_le (le_ceil_mul q.length L (by omega))]
  refine ⟨hflat, ?_, ?_⟩
  · have h1 : ((List.range ((q.length + L - 1) / L)).map
        (fun i => page_data db uid cp s so ord L (i + 1))).map List.length
        = (List.range ((q.length + L - 1) / L)).map
            (fun i => (page_data db uid cp s so ord L (i + 1)).length) := by
      rw [List.map_map]
      rfl
    rw [← h1, ← List.length_flatten, hflat, List.length_map]
  · intro pg hpg
    unfold page_total
    rw [get_tasks_page_eq db uid cp s so ord q hq L pg hL1 hL2 hpg]

/-- C6 witness: the two-task store, no filters, limit 1: pages 1 and 2
together are exactly the two rows in descending created_at order, sizes sum to
2, every page says total 2. -/
theorem pagination_pages_partition_witness :
    ((List.range (([exTask2, exTask1].length + 1 - 1) / 1)).map
        (fun i => page_data exDb1 1 none none none none 1 (i + 1))).flatten
        = [exTask2, exTask1].map task_to_dict
    ∧ ((List.range (([exTask2, exTask1].length + 1 - 1) / 1)).map
        (fun i => (page_data exDb1 1 none none none none 1 (i + 1)).length)).sum
        = [exTask2, exTask1].length
    ∧ ∀ pg : Nat, 1 ≤ pg → page_total exDb1 1 none none none none 1 pg
        = [exTask2, exTask1].length :=
  pagination_pages_partition exDb1 1 none none none none 1 (by decide) (by decide)
    [exTask2, exTask1] (by rfl)

end TodoListAPI
